import Mathlib

/- Verification development for the payment-installment and status-synchronization
   subsystem of the esperanza_internal backend.

   Modelled source files:
   - src/services/saleService.ts        (installment ledger: recalcSalePaymentStatus,
                                         createInstallment, create, update)
   - src/services/clientLicenseService  (extendClientLicense, updateClientLicenseExpiryOnly,
                                         sendPaymentReceivedNotifications)
   - src/services/expenseService.ts     (expense / job-card status bridge)
   - src/services/paymentReminderService.ts (reminder batch jobs)

   Conventions of the embedding:
   - Prisma Decimal values are exact rationals (Lean `Rat`).
   - JavaScript `Number(decimal)` conversion and JS arithmetic on numbers are
     IEEE-754 binary64 (`toB64`, `fadd`, `fmul` below); the values appearing in
     this development all lie far inside the normal, non-overflowing range of
     binary64, which is the range the model covers.
   - `new Prisma.Decimal(jsNumber)` is modelled as the exact rational value of
     the binary64 argument.  (The decimal.js constructor goes through the
     shortest round-tripping decimal string of the number; for every comparison
     performed in the modelled code the two readings agree, because the shortest
     representation of a double d differs from a decimal constant c only when d
     is not the double nearest to c, and all comparisons here are against such
     constants or exact doubles.)
   - Database rows are records, database writes are functional record updates,
     and thrown JS exceptions are `Except.error`.
   - Outbound HTTP/SMS calls are oracles (`remoteOk`, `smsOk` booleans) telling
     whether the external service succeeded.
   - Timestamps are milliseconds since the UTC epoch (`Int`); where the code
     only reads UTC calendar components, dates are `UTCDate` triples with the
     JS 0-based month. -/

namespace Esperanza

/-! ## Kernel-computable exact rational arithmetic

`Rat.add` and `Rat.mul` are irreducible for definitional unfolding, so the
embedding uses these `mkRat`-based mirrors (proved equal to `+` and `*` below)
wherever a concrete value must be evaluated. -/

/-- Exact rational addition via `mkRat` (equals `a + b`, see `qAdd_eq`). -/
def qAdd (a b : ℚ) : ℚ := mkRat (a.num * b.den + b.num * a.den) (a.den * b.den)

/-- Exact rational multiplication via `mkRat` (equals `a * b`, see `qMul_eq`). -/
def qMul (a b : ℚ) : ℚ := mkRat (a.num * b.num) (a.den * b.den)

/-! ## IEEE-754 binary64 model of JavaScript numbers

JavaScript numbers are binary64 floats.  `toB64 q` is the binary64 value
nearest to the exact rational `q` (round to nearest, ties to even), and
`fadd`/`fmul` are JS `+` and `*`: exact rational operation followed by
rounding.  Subnormal and overflow ranges are outside the modelled domain. -/

/-- Mantissa normalization: scale the positive fraction `n/d` by powers of two
until it lies in `[2^52, 2^53)`, tracking the power-of-two weight `sn/sd` so
that the represented value `(n/d) * (sn/sd)` stays fixed; fuel-bounded, and
3000 steps cover the full binary64 exponent range. -/
def b64Norm : ℕ → ℤ × ℤ × ℤ × ℤ → ℤ × ℤ × ℤ × ℤ
  | 0, st => st
  | fuel+1, (n, d, sn, sd) =>
    if n < 4503599627370496 * d then b64Norm fuel (2*n, d, sn, 2*sd)
    else if 9007199254740992 * d ≤ n then b64Norm fuel (n, 2*d, 2*sn, sd)
    else (n, d, sn, sd)

/-- Round the fraction `n/d` (with `d > 0`) to the nearest integer, ties to
even — the IEEE-754 default rounding applied to the normalized mantissa. -/
def rhe (n d : ℤ) : ℤ :=
  let f := n / d
  let r2 := 2 * (n - f * d)
  if r2 < d then f else if d < r2 then f + 1 else if f % 2 = 0 then f else f + 1

/-- Nearest binary64 value of an exact rational (JS `Number(x)`). -/
def toB64 (q : ℚ) : ℚ :=
  if q = 0 then 0
  else
    let st := b64Norm 3000 ((q.num.natAbs : ℤ), (q.den : ℤ), 1, 1)
    let m := rhe st.1 st.2.1
    let mag := mkRat (m * st.2.2.1) st.2.2.2.natAbs
    if q < 0 then -mag else mag

/-- JavaScript `+` on numbers: exact sum, rounded to binary64. -/
def fadd (a b : ℚ) : ℚ := toB64 (qAdd a b)

/-- JavaScript `*` on numbers: exact product, rounded to binary64. -/
def fmul (a b : ℚ) : ℚ := toB64 (qMul a b)

/-! ## Strings and dates -/

/-- JS `String.prototype.trim`: strip whitespace from both ends. -/
def jsTrim (s : String) : String :=
  String.mk (((s.data.dropWhile Char.isWhitespace).reverse.dropWhile Char.isWhitespace).reverse)

/-- JS `phone.replace(/\D/g, "")`: the digit characters of a string. -/
def jsDigits (s : String) : List Char := s.data.filter Char.isDigit

/-- Truthiness of `s?.trim()` for a nullable string column: present and
non-blank after trimming. -/
def hasText (s : Option String) : Bool :=
  match s with
  | none => false
  | some v => decide (jsTrim v ≠ "")

/-- UTC calendar date as JavaScript reads it: `getUTCFullYear`, 0-based
`getUTCMonth`, `getUTCDate`. -/
structure UTCDate where
  year : ℕ
  month : ℕ
  day : ℕ
deriving DecidableEq

/-- The 3rd day of the month following `d`, via the normalizing
`Date.UTC(year, month + 1, 3)` of saleService.createInstallment. -/
def nextMonthThird (d : UTCDate) : UTCDate :=
  ⟨d.year + (d.month + 1) / 12, (d.month + 1) % 12, 3⟩

/-! ## Status enumerations (prisma schema) -/

inductive SaleStatus
  | PENDING
  | COMPLETED
  | CANCELLED
deriving DecidableEq

inductive InstallmentStatus
  | PENDING
  | PAID
deriving DecidableEq

inductive ExpenseStatus
  | DRAFT
  | PENDING
  | APPROVED
  | PAID
  | REJECTED
  | CANCELLED
deriving DecidableEq

inductive JobCardStatus
  | DRAFT
  | PENDING_CLIENT_CONFIRMATION
  | IN_PROGRESS
  | COMPLETED
  | CANCELLED
deriving DecidableEq

/-! ## Sale service data model

Fields not read by any modelled logic (ids, saleNumber, clientId, saleDate,
notes, dueDate, timestamps) are omitted from the row records. -/

/-- A SaleItem row: `quantity` (integer column) and `unitPrice` (Decimal). -/
structure SaleItemRow where
  quantity : ℤ
  unitPrice : ℚ
deriving DecidableEq

/-- A SaleInstallment row: `amount` (Decimal), `status`, `paidAt`. -/
structure SaleInstallmentRow where
  amount : ℚ
  status : InstallmentStatus
  paidAt : UTCDate
deriving DecidableEq

/-- A Sale row together with its `items` and `installments` relations. -/
structure SaleRec where
  status : SaleStatus
  totalAmount : ℚ
  paidAmount : ℚ
  completedAt : Option ℤ
  requestedPaymentDateExtension : Bool
  paymentExtensionDueDate : Option ℤ
  items : List SaleItemRow
  installments : List SaleInstallmentRow
deriving DecidableEq

/-- saleService.calculateTotalAmount: JS
`items.reduce((sum, item) => sum + item.quantity * Number(item.unitPrice), 0)`,
binary64 arithmetic throughout (quantity is an integer-valued JS number). -/
def calculateTotalAmount (items : List SaleItemRow) : ℚ :=
  items.foldl (fun sum item => fadd sum (fmul (mkRat item.quantity 1) (toB64 item.unitPrice))) 0

/-- The float sum of the PAID installments of a sale, exactly as
recalcSalePaymentStatus computes it:
`installments.filter(PAID).reduce((sum, i) => sum + Number(i.amount), 0)`. -/
def paidInstallmentsSum (sale : SaleRec) : ℚ :=
  (sale.installments.filter (fun i => decide (i.status = InstallmentStatus.PAID))).foldl
    (fun sum i => fadd sum (toB64 i.amount)) 0

/-- saleService.recalcSalePaymentStatus: recompute `paidAmount` from PAID
installments; if `paidAmount ≥ totalAmount` set status COMPLETED and stamp
`completedAt`, otherwise clear `completedAt` and demote a COMPLETED status to
PENDING (other statuses are left as they are). -/
def recalcSalePaymentStatus (now : ℤ) (sale : SaleRec) : SaleRec :=
  let paidAmount := paidInstallmentsSum sale
  if sale.totalAmount ≤ paidAmount then
    { sale with paidAmount := paidAmount, status := SaleStatus.COMPLETED, completedAt := some now }
  else if sale.status = SaleStatus.COMPLETED then
    { sale with paidAmount := paidAmount, status := SaleStatus.PENDING, completedAt := none }
  else
    { sale with paidAmount := paidAmount, completedAt := none }

/-- The remote-license credential columns of a Client row. -/
structure ClientCreds where
  backendBaseUrl : Option String
  apiUserName : Option String
  apiPassword : Option String
deriving DecidableEq

/-- The credential guard of saleService.createInstallment:
`client.backendBaseUrl?.trim() && client.apiUserName?.trim() && client.apiPassword?.trim()`. -/
def credsConfigured (client : ClientCreds) : Bool :=
  hasText client.backendBaseUrl && hasText client.apiUserName && hasText client.apiPassword

/-- Input of saleService.createInstallment (dueDate and notes omitted: carried
verbatim into the row and never read by the modelled logic). -/
structure CreateSaleInstallmentData where
  amount : ℚ
  paidAt : Option UTCDate
  status : Option InstallmentStatus
deriving DecidableEq

/-- Observable outcome of saleService.createInstallment: the inserted row, the
final state of the Sale row, the license expiry sent to the remote client API
(none if that branch was skipped), and whether the payment-received SMS
notifications went out. -/
structure CreateInstallmentEffects where
  installment : SaleInstallmentRow
  saleAfter : SaleRec
  licenseExpirySent : Option UTCDate
  paymentNotificationsSent : Bool
deriving DecidableEq

/-- saleService.createInstallment.  `sale?` is the looked-up Sale row, `client?`
the client relation row of the refetched sale, `remoteOk` whether the remote
license update succeeded (its failure — and any notification failure — is
caught and logged, never rethrown).  After inserting the row and recalculating,
the license branch runs whenever all three client credentials are non-blank,
sending as new expiry the 3rd of the month after `paidAt`; finally the payment
extension flags on the sale are cleared unconditionally. -/
def createInstallment (nowTs : ℤ) (nowDate : UTCDate) (sale? : Option SaleRec)
    (client? : Option ClientCreds) (remoteOk : Bool)
    (data : CreateSaleInstallmentData) : Except String CreateInstallmentEffects :=
  match sale? with
  | none => Except.error ("Sale not found")
  | some sale =>
    let paidAt := data.paidAt.getD nowDate
    let status := data.status.getD InstallmentStatus.PAID
    let installment : SaleInstallmentRow := ⟨data.amount, status, paidAt⟩
    let saleInserted := { sale with installments := sale.installments ++ [installment] }
    let saleRecalced := recalcSalePaymentStatus nowTs saleInserted
    let licenseBranch :=
      match client? with
      | some client => credsConfigured client
      | none => false
    let licenseExpirySent := if licenseBranch then some (nextMonthThird paidAt) else none
    let notified := licenseBranch && remoteOk
    let saleCleared := { saleRecalced with
      requestedPaymentDateExtension := false, paymentExtensionDueDate := none }
    Except.ok ⟨installment, saleCleared, licenseExpirySent, notified⟩

/-- clientLicenseService.extendClientLicense: updateClientLicenseExpiryOnly
performs the login / fetch-company / patch-expiry HTTP steps and throws on any
failure (`remoteOk = false`); the subsequent extension SMS sends to the client
and the directors are each wrapped in try/catch, so an SMS failure (`smsOk`)
never affects the outcome. -/
def extendClientLicense (remoteOk : Bool) (smsOk : Bool) : Except String Unit :=
  if remoteOk then Except.ok () else Except.error ("Failed to update client license expiry")

/-- Input of saleService.update; only the extension-date field participates in
the modelled control flow (the remaining scalar fields are spread verbatim into
the write). -/
structure UpdateSaleData where
  paymentExtensionDueDate : Option String
deriving DecidableEq

/-- saleService.update on an existing sale: recompute `totalAmount` from the
stored items; if the update sets a non-blank `paymentExtensionDueDate` string,
first await `extendClientLicense` — an exception there propagates to the
caller before `prisma.sale.update` ever runs — and only then perform the
write.  Returns the outcome together with the final state of the Sale row
(`parseDate` models `new Date(string)` for the written extension date). -/
def saleUpdate (parseDate : String → ℤ) (sale : SaleRec) (data : UpdateSaleData)
    (remoteOk : Bool) (smsOk : Bool) : Except String SaleRec × SaleRec :=
  let totalAmount := if sale.items.isEmpty then sale.totalAmount else calculateTotalAmount sale.items
  let extensionDate := match data.paymentExtensionDueDate with | some s => jsTrim s | none => ""
  let proceed : Except String Unit :=
    if extensionDate ≠ "" then extendClientLicense remoteOk smsOk else Except.ok ()
  match proceed with
  | Except.error e => (Except.error e, sale)
  | Except.ok _ =>
    let written := { sale with
      totalAmount := totalAmount,
      paymentExtensionDueDate :=
        match data.paymentExtensionDueDate with
        | some s => some (parseDate s)
        | none => sale.paymentExtensionDueDate }
    (Except.ok written, written)

/-- Optional first installment in the input of saleService.create. -/
structure FirstInstallmentData where
  amount : ℚ
  paidAt : Option UTCDate
deriving DecidableEq

/-- Input of saleService.create (scalar sale fields omitted: they are spread
into the created row and not read by the modelled logic). -/
structure CreateSaleData where
  items : List SaleItemRow
  firstInstallment : Option FirstInstallmentData
deriving DecidableEq

/-- What saleService.create has persisted by the time it returns or throws:
the Sale row (with its SaleItem rows), the CREATE audit-log entries, and
whether an installment row was created. -/
structure SaleCreateEffects where
  saleRow : Option SaleRec
  saleLogWritten : Bool
  itemLogCount : ℕ
  installmentCreated : Bool
deriving DecidableEq

/-- saleService.create: validates that items exist, computes the total, creates
the Sale (with items) and writes the audit logs, and only afterwards checks the
optional first installment amount against the total — throwing after the sale
and its logs are already persisted when the installment exceeds the total. -/
def saleCreate (nowTs : ℤ) (nowDate : UTCDate) (client? : Option ClientCreds)
    (remoteOk : Bool) (data : CreateSaleData) : Except String SaleRec × SaleCreateEffects :=
  if data.items.isEmpty then
    (Except.error ("At least one sale item is required"), ⟨none, false, 0, false⟩)
  else
    let totalAmount := calculateTotalAmount data.items
    let sale : SaleRec := ⟨SaleStatus.PENDING, totalAmount, 0, none, false, none, data.items, []⟩
    let amount : ℚ := match data.firstInstallment with | some fi => toB64 fi.amount | none => 0
    match data.firstInstallment with
    | some fi =>
      if 0 < amount then
        if toB64 sale.totalAmount < amount then
          (Except.error ("First installment amount cannot exceed the sale total"),
            ⟨some sale, true, data.items.length, false⟩)
        else
          match createInstallment nowTs nowDate (some sale) client? remoteOk
              ⟨fi.amount, fi.paidAt, some InstallmentStatus.PAID⟩ with
          | Except.ok e => (Except.ok e.saleAfter, ⟨some e.saleAfter, true, data.items.length, true⟩)
          | Except.error msg => (Except.error msg, ⟨some sale, true, data.items.length, false⟩)
      else (Except.ok sale, ⟨some sale, true, data.items.length, false⟩)
    | none => (Except.ok sale, ⟨some sale, true, data.items.length, false⟩)

/-! ## Expense / job-card status bridge (expenseService.ts) -/

/-- expenseService.mapJobCardStatusToExpenseStatus (the TS `default` branch is
unreachable: every constructor is covered). -/
def mapJobCardStatusToExpenseStatus : JobCardStatus → ExpenseStatus
  | JobCardStatus.DRAFT => ExpenseStatus.DRAFT
  | JobCardStatus.PENDING_CLIENT_CONFIRMATION => ExpenseStatus.PENDING
  | JobCardStatus.IN_PROGRESS => ExpenseStatus.PENDING
  | JobCardStatus.COMPLETED => ExpenseStatus.PAID
  | JobCardStatus.CANCELLED => ExpenseStatus.CANCELLED

/-- expenseService.mapExpenseStatusToJobCardStatus: only PAID and CANCELLED
map to a target job-card status; the rest leave the job card alone. -/
def mapExpenseStatusToJobCardStatus : ExpenseStatus → Option JobCardStatus
  | ExpenseStatus.PAID => some JobCardStatus.COMPLETED
  | ExpenseStatus.CANCELLED => some JobCardStatus.CANCELLED
  | _ => none

/-- The triggering expense as syncJobCardFromExpenseStatus sees it: its id and
its (nullable) job-card link. -/
structure ExpenseRef where
  id : ℕ
  jobCardId : Option ℕ
deriving DecidableEq

/-- An expense row as the all-of checks read it: id and stored status. -/
structure ExpenseIdStatus where
  id : ℕ
  status : ExpenseStatus
deriving DecidableEq

/-- A JobCard row (only the status is read). -/
structure JobCardRow where
  status : JobCardStatus
deriving DecidableEq

/-- The terminal expense statuses of syncExpensesWithJobCardStatus. -/
def terminalExpenseStatus (s : ExpenseStatus) : Bool :=
  decide (s = ExpenseStatus.PAID ∨ s = ExpenseStatus.REJECTED ∨ s = ExpenseStatus.CANCELLED)

/-- expenseService.syncJobCardFromExpenseStatus: on an expense status change,
compute the target job-card status; skip when there is no link, no real
change, no mapped target, or the job card is missing; never touch a job card
already COMPLETED/CANCELLED unless the target is CANCELLED; complete (resp.
cancel) only when every linked expense is PAID (resp. CANCELLED), reading the
triggering expense at its new status instead of its stored one.  Returns the
status written to the job card, or `none` when the job card is untouched. -/
def syncJobCardFromExpenseStatus (expense : ExpenseRef) (newStatus : ExpenseStatus)
    (oldStatus : Option ExpenseStatus) (jobCard? : Option JobCardRow)
    (allExpenses : List ExpenseIdStatus) : Option JobCardStatus :=
  match expense.jobCardId with
  | none => none
  | some _ =>
    if oldStatus = some newStatus then none
    else
      match mapExpenseStatusToJobCardStatus newStatus with
      | none => none
      | some target =>
        match jobCard? with
        | none => none
        | some jobCard =>
          if (jobCard.status = JobCardStatus.COMPLETED ∨ jobCard.status = JobCardStatus.CANCELLED)
              ∧ target ≠ JobCardStatus.CANCELLED then none
          else if target = JobCardStatus.COMPLETED
              ∧ ¬ (allExpenses.all (fun e =>
                    if e.id = expense.id then decide (newStatus = ExpenseStatus.PAID)
                    else decide (e.status = ExpenseStatus.PAID))) then none
          else if target = JobCardStatus.CANCELLED
              ∧ ¬ (allExpenses.all (fun e =>
                    if e.id = expense.id then decide (newStatus = ExpenseStatus.CANCELLED)
                    else decide (e.status = ExpenseStatus.CANCELLED))) then none
          else some target

/-- expenseService.syncExpensesWithJobCardStatus: when a job card changes
status, every linked non-terminal expense is set to the mapped status; a
terminal expense is only touched when the new job-card status is CANCELLED, in
which case it is force-cancelled.  Returns the final statuses of the linked
expense rows. -/
def syncExpensesWithJobCardStatus (newJobCardStatus : JobCardStatus)
    (expenses : List ExpenseIdStatus) : List ExpenseIdStatus :=
  expenses.map (fun e =>
    if ¬ terminalExpenseStatus e.status then
      { e with status := mapJobCardStatusToExpenseStatus newJobCardStatus }
    else if newJobCardStatus = JobCardStatus.CANCELLED then
      { e with status := ExpenseStatus.CANCELLED }
    else e)

/-! ## Payment reminder engine (paymentReminderService.ts) -/

/-- paymentReminderService.normalizeMobile: Kenyan phone normalization to
`254XXXXXXXXX`. -/
def normalizeMobile (phone : Option String) : Option String :=
  match phone with
  | none => none
  | some p =>
    if jsTrim p = "" then none
    else
      let digits := jsDigits p
      if digits.length = 9 ∧ digits.take 1 = ['7'] then
        some (String.mk (['2','5','4'] ++ digits))
      else if digits.length = 10 ∧ digits.take 1 = ['0'] then
        some (String.mk (['2','5','4'] ++ digits.drop 1))
      else if digits.length = 12 ∧ digits.take 3 = ['2','5','4'] then
        some (String.mk digits)
      else if 9 ≤ digits.length then
        if digits.take 3 = ['2','5','4'] then some (String.mk digits)
        else some (String.mk (['2','5','4'] ++ digits.drop (digits.length - 9)))
      else none

/-- The client columns the reminder senders read. -/
structure ReminderClient where
  companyName : String
  contactPerson : Option String
  phone : Option String
  alternatePhone : Option String
deriving DecidableEq

/-- A due sale as processed by the reminder loops, with the SMS-gateway oracle
for the send attempt to this client. -/
structure ReminderSaleInput where
  saleNumber : String
  client : ReminderClient
  smsOk : Bool
deriving DecidableEq

/-- An active DIRECTOR employee with the oracle for the summary send. -/
structure DirectorRow where
  firstName : String
  phone : Option String
  smsOk : Bool
deriving DecidableEq

/-- An entry of the `errors` array of the reminder result. -/
structure ReminderError where
  saleNumber : String
  client : String
  reason : String
deriving DecidableEq

/-- The return contract of both reminder senders. -/
structure ReminderOutcome where
  sent : ℕ
  skipped : ℕ
  errors : List ReminderError
  directorSummarySent : ℕ
deriving DecidableEq

/-- The customerName helper of both senders:
`(contactPerson && contactPerson.trim()) || companyName || "Valued Customer"`
(note the recorded name is the trimmed contact person). -/
def customerName (c : ReminderClient) : String :=
  match c.contactPerson with
  | some cp => if jsTrim cp ≠ "" then jsTrim cp
               else if c.companyName ≠ "" then c.companyName else ("Valued Customer")
  | none => if c.companyName ≠ "" then c.companyName else ("Valued Customer")

/-- Phone resolution of both senders:
`normalizeMobile(client.phone) || normalizeMobile(client.alternatePhone)`. -/
def resolveMobile (c : ReminderClient) : Option String :=
  (normalizeMobile c.phone).orElse (fun _ => normalizeMobile c.alternatePhone)

/-- One iteration of the per-sale loop shared (verbatim but for the message
text, which is not modelled) by sendPaymentReminders and
sendPaymentExtensionReminders, acting on the accumulator
(sent, skipped, errors, clientNamesSent): an unresolvable phone increments
`skipped` and appends an error; otherwise a successful send increments `sent`
and records the display name, and a failed send appends an error. -/
def reminderStep (acc : ℕ × ℕ × List ReminderError × List String)
    (sale : ReminderSaleInput) : ℕ × ℕ × List ReminderError × List String :=
  match resolveMobile sale.client with
  | none =>
    (acc.1, acc.2.1 + 1,
      acc.2.2.1 ++ [⟨sale.saleNumber, sale.client.companyName, "No valid phone number"⟩],
      acc.2.2.2)
  | some _ =>
    if sale.smsOk then (acc.1 + 1, acc.2.1, acc.2.2.1, acc.2.2.2 ++ [customerName sale.client])
    else
      (acc.1, acc.2.1,
        acc.2.2.1 ++ [⟨sale.saleNumber, sale.client.companyName, "SMS send failed"⟩],
        acc.2.2.2)

/-- The director-summary loop of both senders: one SMS per director whose
phone normalizes, counting the successful sends. -/
def directorSummaryCount (directors : List DirectorRow) : ℕ :=
  (directors.filter (fun d => (normalizeMobile d.phone).isSome && d.smsOk)).length

/-- paymentReminderService.sendPaymentReminders (director summaries are sent
even when no client reminder went out, as the "no clients" variant). -/
def sendPaymentReminders (dueSales : List ReminderSaleInput)
    (directors : List DirectorRow) : ReminderOutcome :=
  let st := dueSales.foldl reminderStep (0, 0, [], [])
  ⟨st.1, st.2.1, st.2.2.1, directorSummaryCount directors⟩

/-- paymentReminderService.sendPaymentExtensionReminders (director summaries
only when at least one reminder was sent). -/
def sendPaymentExtensionReminders (dueSales : List ReminderSaleInput)
    (directors : List DirectorRow) : ReminderOutcome :=
  let st := dueSales.foldl reminderStep (0, 0, [], [])
  ⟨st.1, st.2.1, st.2.2.1, if st.1 = 0 then 0 else directorSummaryCount directors⟩

/-- A Sale row as read by getSalesDueForExtensionReminder. -/
structure ExtReminderSaleRow where
  status : SaleStatus
  requestedPaymentDateExtension : Bool
  paymentExtensionDueDate : Option ℤ
  totalAmount : ℚ
  paidAmount : ℚ
deriving DecidableEq

/-- Milliseconds per UTC day. -/
def msPerDay : ℤ := 86400000

/-- `Date.UTC(y, m, d + 1, 0, 0, 0, 0)` for `(y, m, d)` the UTC calendar date
of `now`: the start of the next UTC day (integer division on `ℤ` is Euclidean,
which is floor division for the positive divisor). -/
def extensionWindowStart (now : ℤ) : ℤ := msPerDay * (now / msPerDay) + msPerDay

/-- `Date.UTC(y, m, d + 3, 23, 59, 59, 999)`: the last millisecond of the
third UTC day after the day of `now`. -/
def extensionWindowEnd (now : ℤ) : ℤ := msPerDay * (now / msPerDay) + 4 * msPerDay - 1

/-- The window test `paymentExtensionDueDate: { gte: start, lte: end }` (with
the `not: null` guard) of getSalesDueForExtensionReminder. -/
def dueInExtensionWindow (now : ℤ) (due : Option ℤ) : Bool :=
  match due with
  | some t => decide (extensionWindowStart now ≤ t ∧ t ≤ extensionWindowEnd now)
  | none => false

/-- Membership in the result of
paymentReminderService.getSalesDueForExtensionReminder: the prisma query
(status not CANCELLED, extension requested, due date in the 1–3 day window,
totalAmount > 0) followed by the JS filter
`Number(paidAmount) < Number(totalAmount)`. -/
def selectedForExtensionReminder (now : ℤ) (s : ExtReminderSaleRow) : Prop :=
  s.status ≠ SaleStatus.CANCELLED
  ∧ s.requestedPaymentDateExtension = true
  ∧ dueInExtensionWindow now s.paymentExtensionDueDate = true
  ∧ 0 < s.totalAmount
  ∧ toB64 s.paidAmount < toB64 s.totalAmount

instance (now : ℤ) (s : ExtReminderSaleRow) : Decidable (selectedForExtensionReminder now s) := by
  unfold selectedForExtensionReminder
  infer_instance

/-! ## Validation of the kernel-computable rational mirrors -/

/-- `qAdd` is exact rational addition. -/
theorem qAdd_eq (a b : ℚ) : qAdd a b = a + b := by
  have ha : (a.den : ℚ) ≠ 0 := by exact_mod_cast a.den_nz
  have hb : (b.den : ℚ) ≠ 0 := by exact_mod_cast b.den_nz
  rw [qAdd, Rat.mkRat_eq_div]
  push_cast
  conv_rhs => rw [← Rat.num_div_den a, ← Rat.num_div_den b]
  rw [div_add_div _ _ ha hb]
  ring_nf

/-- `qMul` is exact rational multiplication. -/
theorem qMul_eq (a b : ℚ) : qMul a b = a * b := by
  rw [qMul, Rat.mkRat_eq_div]
  push_cast
  conv_rhs => rw [← Rat.num_div_den a, ← Rat.num_div_den b]
  rw [div_mul_div_comm]

/-! ## Installment ledger theorems -/

/-- The `paidAmount` written by recalcSalePaymentStatus is the float sum of
the PAID installments, in every branch. -/
theorem recalcSalePaymentStatus_paidAmount (now : ℤ) (sale : SaleRec) :
    (recalcSalePaymentStatus now sale).paidAmount = paidInstallmentsSum sale := by
  unfold recalcSalePaymentStatus
  by_cases h : sale.totalAmount ≤ paidInstallmentsSum sale <;>
    by_cases h2 : sale.status = SaleStatus.COMPLETED <;> simp [h, h2]

/-- C1 (amended).  After recalcSalePaymentStatus the status is COMPLETED if
and only if paidAmount is at least totalAmount — with no carve-out for
CANCELLED sales: a fully paid CANCELLED sale is promoted to COMPLETED as well.
When the sale is not fully paid, completedAt is cleared and a previously
COMPLETED sale reverts to PENDING while any other status (PENDING or
CANCELLED) is preserved; when it is fully paid, completedAt is stamped. -/
theorem recalc_completed_iff_fully_paid (now : ℤ) (sale : SaleRec) :
    ((recalcSalePaymentStatus now sale).status = SaleStatus.COMPLETED ↔
      sale.totalAmount ≤ (recalcSalePaymentStatus now sale).paidAmount)
    ∧ ((recalcSalePaymentStatus now sale).status =
        if sale.totalAmount ≤ paidInstallmentsSum sale then SaleStatus.COMPLETED
        else if sale.status = SaleStatus.COMPLETED then SaleStatus.PENDING else sale.status)
    ∧ ((recalcSalePaymentStatus now sale).completedAt =
        if sale.totalAmount ≤ paidInstallmentsSum sale then some now else none) := by
  rw [recalcSalePaymentStatus_paidAmount]
  by_cases h : sale.totalAmount ≤ paidInstallmentsSum sale
  · refine ⟨by simp [recalcSalePaymentStatus, h], ?_, ?_⟩ <;> simp [recalcSalePaymentStatus, h]
  · by_cases h2 : sale.status = SaleStatus.COMPLETED
    · refine ⟨?_, ?_, ?_⟩ <;> simp [recalcSalePaymentStatus, h, h2]
    · refine ⟨?_, ?_, ?_⟩ <;> simp [recalcSalePaymentStatus, h, h2]

/-- C1 counterexample.  recalcSalePaymentStatus does change the status of a
CANCELLED sale: a CANCELLED sale with a PAID installment covering its total is
rewritten to COMPLETED. -/
theorem recalc_cancelled_sale_counterexample :
    (SaleRec.status ⟨SaleStatus.CANCELLED, 100, 0, none, false, none, [],
        [⟨100, InstallmentStatus.PAID, ⟨2026, 0, 15⟩⟩]⟩ = SaleStatus.CANCELLED)
    ∧ ((recalcSalePaymentStatus 0 ⟨SaleStatus.CANCELLED, 100, 0, none, false, none, [],
        [⟨100, InstallmentStatus.PAID, ⟨2026, 0, 15⟩⟩]⟩).status ≠ SaleStatus.CANCELLED)
    ∧ ((recalcSalePaymentStatus 0 ⟨SaleStatus.CANCELLED, 100, 0, none, false, none, [],
        [⟨100, InstallmentStatus.PAID, ⟨2026, 0, 15⟩⟩]⟩).status = SaleStatus.COMPLETED) := by
  refine ⟨rfl, by decide, by decide⟩

/-- C4.  recalcSalePaymentStatus sums installment amounts in binary64, not in
exact decimal arithmetic: three PAID installments of 0.3 against a total of
0.9 leave paidAmount strictly below 0.9 (the float sum is
0.6 + 0.3 = 0.8999999999999999…), so the sale is not marked COMPLETED even
though the exact decimal sum equals the total. -/
theorem recalc_float_sum_failing_input :
    ((mkRat 3 10 : ℚ) + mkRat 3 10 + mkRat 3 10 = mkRat 9 10)
    ∧ ((recalcSalePaymentStatus 0 ⟨SaleStatus.PENDING, mkRat 9 10, 0, none, false, none, [],
          [⟨mkRat 3 10, InstallmentStatus.PAID, ⟨2026, 0, 5⟩⟩,
           ⟨mkRat 3 10, InstallmentStatus.PAID, ⟨2026, 1, 5⟩⟩,
           ⟨mkRat 3 10, InstallmentStatus.PAID, ⟨2026, 2, 5⟩⟩]⟩).paidAmount ≠ mkRat 9 10)
    ∧ ((recalcSalePaymentStatus 0 ⟨SaleStatus.PENDING, mkRat 9 10, 0, none, false, none, [],
          [⟨mkRat 3 10, InstallmentStatus.PAID, ⟨2026, 0, 5⟩⟩,
           ⟨mkRat 3 10, InstallmentStatus.PAID, ⟨2026, 1, 5⟩⟩,
           ⟨mkRat 3 10, InstallmentStatus.PAID, ⟨2026, 2, 5⟩⟩]⟩).paidAmount < mkRat 9 10)
    ∧ ((recalcSalePaymentStatus 0 ⟨SaleStatus.PENDING, mkRat 9 10, 0, none, false, none, [],
          [⟨mkRat 3 10, InstallmentStatus.PAID, ⟨2026, 0, 5⟩⟩,
           ⟨mkRat 3 10, InstallmentStatus.PAID, ⟨2026, 1, 5⟩⟩,
           ⟨mkRat 3 10, InstallmentStatus.PAID, ⟨2026, 2, 5⟩⟩]⟩).status = SaleStatus.PENDING) := by
  refine ⟨?_, by decide, by decide, by decide⟩
  have h3 : (mkRat 3 10 : ℚ) = 3 / 10 := by
    rw [Rat.mkRat_eq_div]; norm_num
  have h9 : (mkRat 9 10 : ℚ) = 9 / 10 := by
    rw [Rat.mkRat_eq_div]; norm_num
  rw [h3, h9]; norm_num

/-- C2 (amended).  In createInstallment the remote-license update and the
payment-received notifications are gated only on the client having all three
remote-license credentials non-blank — the status of the created installment
is not consulted — and the expiry sent is the 3rd of the month after paidAt
(UTC), e.g. 2026-01-15 (month index 0) yields 2026-02-03 (month index 1); the
notifications go out exactly when the credentials are configured and the
remote call succeeded (its failure is swallowed). -/
theorem createInstallment_license_side_effect_spec
    (nowTs : ℤ) (nowDate : UTCDate) (sale : SaleRec) (client : ClientCreds)
    (remoteOk : Bool) (data : CreateSaleInstallmentData) :
    ((createInstallment nowTs nowDate (some sale) (some client) remoteOk data).map
        (fun e => e.licenseExpirySent)
      = Except.ok (if credsConfigured client then
          some (nextMonthThird (data.paidAt.getD nowDate)) else none))
    ∧ ((createInstallment nowTs nowDate (some sale) (some client) remoteOk data).map
        (fun e => e.paymentNotificationsSent)
      = Except.ok (credsConfigured client && remoteOk))
    ∧ nextMonthThird ⟨2026, 0, 15⟩ = ⟨2026, 1, 3⟩ := by
  refine ⟨?_, ?_, by decide⟩ <;> cases hc : credsConfigured client <;>
    simp [createInstallment, Except.map, hc]

/-- C2 counterexample.  An installment created with status PENDING on a sale
whose client has credentials configured still triggers the license update (and
with a successful remote call the payment-received notifications): the side
effect is not restricted to PAID installments. -/
theorem createInstallment_pending_triggers_license :
    (createInstallment 0 ⟨2026, 0, 10⟩
        (some ⟨SaleStatus.PENDING, 100, 0, none, false, none, [], []⟩)
        (some ⟨some ("http://erp.example"), some ("admin"), some ("pw")⟩)
        true ⟨40, some ⟨2026, 0, 15⟩, some InstallmentStatus.PENDING⟩).toOption.map
      (fun e => (e.installment.status, e.licenseExpirySent, e.paymentNotificationsSent))
    = some (InstallmentStatus.PENDING, some ⟨2026, 1, 3⟩, true) := by
  decide

/-- C8.  Every createInstallment call on an existing sale — whatever the
installment status, client credentials or remote outcome — leaves the sale
with requestedPaymentDateExtension false and paymentExtensionDueDate null:
recording a payment unconditionally clears any pending extension request. -/
theorem createInstallment_clears_extension
    (nowTs : ℤ) (nowDate : UTCDate) (sale : SaleRec) (client? : Option ClientCreds)
    (remoteOk : Bool) (data : CreateSaleInstallmentData) :
    (createInstallment nowTs nowDate (some sale) client? remoteOk data).map
      (fun e => (e.saleAfter.requestedPaymentDateExtension, e.saleAfter.paymentExtensionDueDate))
    = Except.ok (false, none) := by
  simp [createInstallment, Except.map]

/-! ## Expense / job-card bridge theorems -/

/-- C3.  syncJobCardFromExpenseStatus never touches a job card already in a
terminal state unless the target status is CANCELLED; it reports COMPLETED
only when every linked expense is PAID, the triggering expense being read at
its new status; and in the two-expense scenario, marking one expense PAID
while the other is PENDING leaves the job card untouched, while marking the
second PAID (the first already stored as PAID) completes it. -/
theorem syncJobCardFromExpenseStatus_guards
    (expense : ExpenseRef) (newStatus : ExpenseStatus) (oldStatus : Option ExpenseStatus)
    (jobCard : JobCardRow) (allExpenses : List ExpenseIdStatus) :
    ((jobCard.status = JobCardStatus.COMPLETED ∨ jobCard.status = JobCardStatus.CANCELLED) →
      mapExpenseStatusToJobCardStatus newStatus ≠ some JobCardStatus.CANCELLED →
      syncJobCardFromExpenseStatus expense newStatus oldStatus (some jobCard) allExpenses = none)
    ∧ (syncJobCardFromExpenseStatus expense newStatus oldStatus (some jobCard) allExpenses
          = some JobCardStatus.COMPLETED →
        ∀ e ∈ allExpenses,
          (e.id = expense.id → newStatus = ExpenseStatus.PAID)
          ∧ (e.id ≠ expense.id → e.status = ExpenseStatus.PAID))
    ∧ (syncJobCardFromExpenseStatus ⟨1, some 7⟩ ExpenseStatus.PAID (some ExpenseStatus.PENDING)
          (some ⟨JobCardStatus.IN_PROGRESS⟩)
          [⟨1, ExpenseStatus.PENDING⟩, ⟨2, ExpenseStatus.PENDING⟩] = none)
    ∧ (syncJobCardFromExpenseStatus ⟨2, some 7⟩ ExpenseStatus.PAID (some ExpenseStatus.PENDING)
          (some ⟨JobCardStatus.IN_PROGRESS⟩)
          [⟨1, ExpenseStatus.PAID⟩, ⟨2, ExpenseStatus.PENDING⟩] = some JobCardStatus.COMPLETED) := by
  refine ⟨?_, ?_, by decide, by decide⟩
  · intro hterm htarget
    cases hjc : expense.jobCardId with
    | none => simp [syncJobCardFromExpenseStatus, hjc]
    | some j =>
      by_cases hold : oldStatus = some newStatus
      · simp [syncJobCardFromExpenseStatus, hjc, hold]
      · cases hmap : mapExpenseStatusToJobCardStatus newStatus with
        | none => simp [syncJobCardFromExpenseStatus, hjc, hold, hmap]
        | some target =>
          have ht : ¬ target = JobCardStatus.CANCELLED := fun h => htarget (h ▸ hmap)
          simp [syncJobCardFromExpenseStatus, hjc, hold, hmap, hterm, ht]
  · intro hres e he
    unfold syncJobCardFromExpenseStatus at hres
    cases hjc : expense.jobCardId with
    | none => rw [hjc] at hres; cases hres
    | some j =>
      rw [hjc] at hres
      by_cases hold : oldStatus = some newStatus
      · rw [if_pos hold] at hres; cases hres
      · rw [if_neg hold] at hres
        cases hmap : mapExpenseStatusToJobCardStatus newStatus with
        | none => rw [hmap] at hres; cases hres
        | some target =>
          rw [hmap] at hres
          dsimp only at hres
          split_ifs at hres with h1 h2 h3
          all_goals injection hres with htc
          all_goals subst htc
          have hall : allExpenses.all (fun x =>
              if x.id = expense.id then decide (newStatus = ExpenseStatus.PAID)
              else decide (x.status = ExpenseStatus.PAID)) = true := by
            by_contra hn
            exact h2 ⟨rfl, hn⟩
          rw [List.all_eq_true] at hall
          have he2 := hall e he
          constructor
          · intro hid
            rw [if_pos hid] at he2
            exact of_decide_eq_true he2
          · intro hid
            rw [if_neg hid] at he2
            exact of_decide_eq_true he2

/-- C3 witness: a COMPLETED job card is untouched when an expense turns PAID
(target COMPLETED, not CANCELLED). -/
theorem syncJobCardFromExpenseStatus_guards_witness :
    syncJobCardFromExpenseStatus ⟨3, some 9⟩ ExpenseStatus.PAID (some ExpenseStatus.APPROVED)
      (some ⟨JobCardStatus.COMPLETED⟩) [⟨3, ExpenseStatus.APPROVED⟩] = none :=
  (syncJobCardFromExpenseStatus_guards ⟨3, some 9⟩ ExpenseStatus.PAID
      (some ExpenseStatus.APPROVED) ⟨JobCardStatus.COMPLETED⟩
      [⟨3, ExpenseStatus.APPROVED⟩]).1 (Or.inl rfl) (by decide)

/-- C7.  syncExpensesWithJobCardStatus: when the job card is CANCELLED every
linked expense — terminal or not — ends CANCELLED; for any other new job-card
status only the non-terminal expenses are rewritten, to the mapped status
(DRAFT to DRAFT, PENDING_CLIENT_CONFIRMATION and IN_PROGRESS to PENDING,
COMPLETED to PAID). -/
theorem syncExpensesWithJobCardStatus_spec (newStatus : JobCardStatus)
    (expenses : List ExpenseIdStatus) :
    (newStatus = JobCardStatus.CANCELLED →
      ∀ e ∈ syncExpensesWithJobCardStatus newStatus expenses,
        e.status = ExpenseStatus.CANCELLED)
    ∧ (newStatus ≠ JobCardStatus.CANCELLED →
      syncExpensesWithJobCardStatus newStatus expenses
        = expenses.map (fun e => if terminalExpenseStatus e.status then e
            else { e with status := mapJobCardStatusToExpenseStatus newStatus }))
    ∧ mapJobCardStatusToExpenseStatus JobCardStatus.DRAFT = ExpenseStatus.DRAFT
    ∧ mapJobCardStatusToExpenseStatus JobCardStatus.PENDING_CLIENT_CONFIRMATION
        = ExpenseStatus.PENDING
    ∧ mapJobCardStatusToExpenseStatus JobCardStatus.IN_PROGRESS = ExpenseStatus.PENDING
    ∧ mapJobCardStatusToExpenseStatus JobCardStatus.COMPLETED = ExpenseStatus.PAID := by
  refine ⟨?_, ?_, rfl, rfl, rfl, rfl⟩
  · intro h e he
    subst h
    simp only [syncExpensesWithJobCardStatus, List.mem_map] at he
    obtain ⟨a, _, rfl⟩ := he
    by_cases hterm : terminalExpenseStatus a.status <;>
      simp [hterm, mapJobCardStatusToExpenseStatus]
  · intro h
    unfold syncExpensesWithJobCardStatus
    apply List.map_congr_left
    intro a _
    by_cases hterm : terminalExpenseStatus a.status <;> simp [hterm, h]

/-- C7 witness: a non-CANCELLED transition rewrites only the non-terminal
expense. -/
theorem syncExpensesWithJobCardStatus_spec_witness :
    syncExpensesWithJobCardStatus JobCardStatus.DRAFT
        [⟨1, ExpenseStatus.PAID⟩, ⟨2, ExpenseStatus.PENDING⟩]
      = [⟨1, ExpenseStatus.PAID⟩, ⟨2, ExpenseStatus.PENDING⟩].map
          (fun e => if terminalExpenseStatus e.status then e
            else { e with status := mapJobCardStatusToExpenseStatus JobCardStatus.DRAFT }) :=
  (syncExpensesWithJobCardStatus_spec JobCardStatus.DRAFT
      [⟨1, ExpenseStatus.PAID⟩, ⟨2, ExpenseStatus.PENDING⟩]).2.1 (by decide)

/-! ## Sale update (extension flow) and sale creation theorems -/

/-- C5 (amended).  When a sale update sets a non-blank paymentExtensionDueDate
and the remote license client fails, the exception is NOT caught: saleUpdate
returns the error and the sale write never happens (the sale row is returned
unchanged) — the remote call runs before the write, so nothing needs rolling
back; only the SMS sends inside the extension flow are caught, so the outcome
never depends on the SMS oracle. -/
theorem saleUpdate_license_failure_spec (parseDate : String → ℤ) (sale : SaleRec)
    (data : UpdateSaleData) (remoteOk : Bool) (smsOk : Bool) :
    (jsTrim (data.paymentExtensionDueDate.getD ("")) ≠ "" → remoteOk = false →
      (saleUpdate parseDate sale data remoteOk smsOk).1
          = Except.error ("Failed to update client license expiry")
        ∧ (saleUpdate parseDate sale data remoteOk smsOk).2 = sale)
    ∧ saleUpdate parseDate sale data remoteOk smsOk
        = saleUpdate parseDate sale data remoteOk true := by
  refine ⟨?_, rfl⟩
  intro h1 h2
  subst h2
  cases hd : data.paymentExtensionDueDate with
  | none => rw [hd] at h1; simp [Option.getD] at h1; exact absurd rfl h1
  | some s =>
    rw [hd] at h1
    simp only [Option.getD] at h1
    constructor <;> simp [saleUpdate, hd, h1, extendClientLicense]

/-- C5 witness: concrete failing extension update. -/
theorem saleUpdate_license_failure_witness :
    ((saleUpdate (fun _ => 0) ⟨SaleStatus.PENDING, 100, 0, none, false, none, [], []⟩
        ⟨some ("2026-03-01")⟩ false true).1
      = Except.error ("Failed to update client license expiry"))
    ∧ ((saleUpdate (fun _ => 0) ⟨SaleStatus.PENDING, 100, 0, none, false, none, [], []⟩
        ⟨some ("2026-03-01")⟩ false true).2
      = ⟨SaleStatus.PENDING, 100, 0, none, false, none, [], []⟩) :=
  (saleUpdate_license_failure_spec (fun _ => 0)
      ⟨SaleStatus.PENDING, 100, 0, none, false, none, [], []⟩
      ⟨some ("2026-03-01")⟩ false true).1 (by decide) rfl

/-- C5 counterexample.  A remote license failure during the extension flow is
not caught and logged: the sale update aborts with the error and the sale row
is left unmodified, contradicting that the primary ledger mutation still
succeeds. -/
theorem saleUpdate_license_failure_counterexample :
    ((saleUpdate (fun _ => 0) ⟨SaleStatus.PENDING, 250, 0, none, false, none, [], []⟩
        ⟨some ("2026-04-01")⟩ false true).1
      = Except.error ("Failed to update client license expiry"))
    ∧ ((saleUpdate (fun _ => 0) ⟨SaleStatus.PENDING, 250, 0, none, false, none, [], []⟩
        ⟨some ("2026-04-01")⟩ false true).2
      = ⟨SaleStatus.PENDING, 250, 0, none, false, none, [], []⟩) :=
  ⟨rfl, rfl⟩

/-- C6 (amended).  When sale creation carries a first installment whose
(binary64) amount exceeds the computed sale total, saleCreate throws the
validation error and creates no installment — but only after the Sale row,
its SaleItem rows and their CREATE audit-log entries have been persisted. -/
theorem saleCreate_overlarge_first_installment_spec (nowTs : ℤ) (nowDate : UTCDate)
    (client? : Option ClientCreds) (remoteOk : Bool) (data : CreateSaleData)
    (fi : FirstInstallmentData)
    (hfi : data.firstInstallment = some fi)
    (hitems : data.items.isEmpty = false)
    (hpos : 0 < toB64 fi.amount)
    (hover : toB64 (calculateTotalAmount data.items) < toB64 fi.amount) :
    ((saleCreate nowTs nowDate client? remoteOk data).1
        = Except.error ("First installment amount cannot exceed the sale total"))
    ∧ ((saleCreate nowTs nowDate client? remoteOk data).2
        = ⟨some ⟨SaleStatus.PENDING, calculateTotalAmount data.items, 0, none, false, none,
              data.items, []⟩,
            true, data.items.length, false⟩) := by
  have hl : ¬ toB64 fi.amount ≤ toB64 (calculateTotalAmount data.items) := not_le.mpr hover
  constructor <;> simp [saleCreate, hitems, hfi, hpos, hover]

/-- C6 witness: one item of quantity 1 at unit price 100 with a first
installment of 200. -/
theorem saleCreate_overlarge_first_installment_witness :
    ((saleCreate 0 ⟨2026, 0, 10⟩ none true ⟨[⟨1, 100⟩], some ⟨200, none⟩⟩).1
        = Except.error ("First installment amount cannot exceed the sale total"))
    ∧ ((saleCreate 0 ⟨2026, 0, 10⟩ none true ⟨[⟨1, 100⟩], some ⟨200, none⟩⟩).2
        = ⟨some ⟨SaleStatus.PENDING, calculateTotalAmount [⟨1, 100⟩], 0, none, false, none,
              [⟨1, 100⟩], []⟩,
            true, ([⟨(1 : ℤ), (100 : ℚ)⟩] : List SaleItemRow).length, false⟩) :=
  saleCreate_overlarge_first_installment_spec 0 ⟨2026, 0, 10⟩ none true
    ⟨[⟨1, 100⟩], some ⟨200, none⟩⟩ ⟨200, none⟩ rfl rfl (by decide) (by decide)

/-- C6 counterexample.  On that same input the operation does fail, but the
side effects are not absent: the Sale row, the item log and the sale log have
been persisted (only the installment is missing). -/
theorem saleCreate_overlarge_first_installment_counterexample :
    ((saleCreate 0 ⟨2026, 0, 10⟩ none true ⟨[⟨2, 50⟩], some ⟨300, none⟩⟩).1
        = Except.error ("First installment amount cannot exceed the sale total"))
    ∧ ((saleCreate 0 ⟨2026, 0, 10⟩ none true ⟨[⟨2, 50⟩], some ⟨300, none⟩⟩).2.saleRow ≠ none)
    ∧ ((saleCreate 0 ⟨2026, 0, 10⟩ none true ⟨[⟨2, 50⟩], some ⟨300, none⟩⟩).2.saleLogWritten = true)
    ∧ ((saleCreate 0 ⟨2026, 0, 10⟩ none true ⟨[⟨2, 50⟩], some ⟨300, none⟩⟩).2.itemLogCount = 1)
    ∧ ((saleCreate 0 ⟨2026, 0, 10⟩ none true
        ⟨[⟨2, 50⟩], some ⟨300, none⟩⟩).2.installmentCreated = false) := by
  refine ⟨rfl, by decide, by decide, by decide, by decide⟩

/-! ## Payment reminder theorems -/

/-- C9 (amended).  getSalesDueForExtensionReminder selects exactly the sales
with requestedPaymentDateExtension true, totalAmount positive, unpaid balance
remaining (on the binary64-converted amounts, as the code compares them),
status not CANCELLED, and a paymentExtensionDueDate lying 1 to 3 UTC calendar
days after now, inclusive: the timestamp window
[start of next UTC day, last millisecond of the third day] holds exactly when
the UTC day index of the due date exceeds that of now by 1, 2 or 3. -/
theorem extensionReminder_selection_spec (now : ℤ) (s : ExtReminderSaleRow) :
    selectedForExtensionReminder now s ↔
      (s.requestedPaymentDateExtension = true
        ∧ 0 < s.totalAmount
        ∧ toB64 s.paidAmount < toB64 s.totalAmount
        ∧ s.status ≠ SaleStatus.CANCELLED
        ∧ ∃ t, s.paymentExtensionDueDate = some t
            ∧ 1 ≤ t / msPerDay - now / msPerDay
            ∧ t / msPerDay - now / msPerDay ≤ 3) := by
  unfold selectedForExtensionReminder dueInExtensionWindow
  cases ht : s.paymentExtensionDueDate with
  | none => simp [ht]
  | some t =>
    simp only [ht, decide_eq_true_eq, Option.some.injEq,
      extensionWindowStart, extensionWindowEnd, msPerDay]
    constructor
    · rintro ⟨h1, h2, ⟨h3, h4⟩, h5, h6⟩
      exact ⟨h2, h5, h6, h1, t, rfl, by omega, by omega⟩
    · rintro ⟨h1, h2, h3, h4, t2, rfl, h5, h6⟩
      exact ⟨h4, h1, ⟨by omega, by omega⟩, h2, h3⟩

/-- C9 counterexample.  A CANCELLED sale that satisfies every condition the
claim lists (extension requested, positive total, unpaid balance, due date
exactly two UTC days ahead) is nevertheless not selected: the query also
filters on status not CANCELLED, which the claim omits. -/
theorem extensionReminder_cancelled_counterexample :
    (ExtReminderSaleRow.requestedPaymentDateExtension
        ⟨SaleStatus.CANCELLED, true, some (3600000 + 2 * 86400000), 100, 0⟩ = true)
    ∧ (0 < ExtReminderSaleRow.totalAmount
        ⟨SaleStatus.CANCELLED, true, some (3600000 + 2 * 86400000), 100, 0⟩)
    ∧ (ExtReminderSaleRow.paidAmount
          ⟨SaleStatus.CANCELLED, true, some (3600000 + 2 * 86400000), 100, 0⟩
        < ExtReminderSaleRow.totalAmount
          ⟨SaleStatus.CANCELLED, true, some (3600000 + 2 * 86400000), 100, 0⟩)
    ∧ ((3600000 + 2 * 86400000) / msPerDay - (3600000 : ℤ) / msPerDay = 2)
    ∧ ¬ selectedForExtensionReminder 3600000
        ⟨SaleStatus.CANCELLED, true, some (3600000 + 2 * 86400000), 100, 0⟩ := by
  refine ⟨rfl, by decide, by decide, by decide, by decide⟩

/-- Loop invariant of the shared per-sale reminder iteration: each processed
sale adds exactly one unit to sent + errors, skipped never grows faster than
errors, and each success records exactly one client name. -/
theorem reminderStep_accounting (acc : ℕ × ℕ × List ReminderError × List String)
    (sale : ReminderSaleInput) :
    ((reminderStep acc sale).1 + (reminderStep acc sale).2.2.1.length
        = acc.1 + acc.2.2.1.length + 1)
    ∧ ((reminderStep acc sale).2.1 + acc.2.2.1.length
        ≤ acc.2.1 + (reminderStep acc sale).2.2.1.length)
    ∧ (acc.2.1 ≤ (reminderStep acc sale).2.1) := by
  unfold reminderStep
  cases resolveMobile sale.client with
  | none => simp [List.length_append]; omega
  | some m =>
    by_cases h : sale.smsOk = true <;> simp [h, List.length_append] <;> omega

/-- Folding the reminder iteration over the due sales accounts for every sale
exactly once and keeps skipped bounded by the errors added. -/
theorem reminderStep_foldl_accounting (sales : List ReminderSaleInput)
    (acc : ℕ × ℕ × List ReminderError × List String) :
    ((sales.foldl reminderStep acc).1 + (sales.foldl reminderStep acc).2.2.1.length
        = acc.1 + acc.2.2.1.length + sales.length)
    ∧ ((sales.foldl reminderStep acc).2.1 + acc.2.2.1.length
        ≤ acc.2.1 + (sales.foldl reminderStep acc).2.2.1.length) := by
  induction sales generalizing acc with
  | nil => simp
  | cons sale rest ih =>
    simp only [List.foldl_cons, List.length_cons]
    have hstep := reminderStep_accounting acc sale
    have hrest := ih (reminderStep acc sale)
    omega

/-- C10.  For both sendPaymentReminders and sendPaymentExtensionReminders,
every selected due sale is accounted for exactly once — it increments sent or
appends exactly one errors entry — so sent + errors.length equals the number
of due sales, and skipped (incremented only in the missing-phone case, which
also appends an error) never exceeds errors.length. -/
theorem reminder_batch_accounting (dueSales : List ReminderSaleInput)
    (directors : List DirectorRow) :
    ((sendPaymentReminders dueSales directors).sent
          + (sendPaymentReminders dueSales directors).errors.length = dueSales.length
      ∧ (sendPaymentReminders dueSales directors).skipped
          ≤ (sendPaymentReminders dueSales directors).errors.length)
    ∧ ((sendPaymentExtensionReminders dueSales directors).sent
          + (sendPaymentExtensionReminders dueSales directors).errors.length = dueSales.length
      ∧ (sendPaymentExtensionReminders dueSales directors).skipped
          ≤ (sendPaymentExtensionReminders dueSales directors).errors.length) := by
  have h := reminderStep_foldl_accounting dueSales (0, 0, [], [])
  simp only [List.length_nil, Nat.add_zero, Nat.zero_add] at h
  simp only [sendPaymentReminders, sendPaymentExtensionReminders]
  exact ⟨⟨h.1, h.2⟩, ⟨h.1, h.2⟩⟩

end Esperanza
